import Mathlib

/-!
Verification development for the MojoCode repository: the `TaskForm`
client component (agent/model selection, repository cache, submit
pipeline), the database migration runner (`scripts/migrate.ts`) and the
database reset tool.  Each program fragment is embedded as an executable
Lean definition translated from the TypeScript source; the theorems at
the end of the file settle the specification claims against those
definitions.
-/

set_option maxHeartbeats 1000000

/- ===== Substring machinery (JS `String.prototype.includes`) ===== -/

/-- Bool test: the first list is an initial segment of the second
(character-by-character comparison). -/
def leadsList : List Char → List Char → Bool
  | [], _ => true
  | _ :: _, [] => false
  | a :: as, b :: bs => a == b && leadsList as bs

/-- Bool test: `pat` occurs contiguously somewhere inside the second list. -/
def subListOf (pat : List Char) : List Char → Bool
  | [] => leadsList pat []
  | b :: bs => leadsList pat (b :: bs) || subListOf pat bs

/-- Embedding of JavaScript `s.includes(pat)`. -/
def strIncludes (s pat : String) : Bool := subListOf pat.data s.data

/-- Specification-level statement that `pat` occurs contiguously inside `s`. -/
def ContainsSub (s pat : String) : Prop :=
  ∃ l r, s.data = l ++ pat.data ++ r

theorem leadsList_iff (as : List Char) : ∀ bs : List Char,
    leadsList as bs = true ↔ ∃ t, bs = as ++ t := by
  induction as with
  | nil =>
    intro bs
    simp [leadsList]
  | cons a as ih =>
    intro bs
    cases bs with
    | nil => simp [leadsList]
    | cons b bs =>
      simp only [leadsList, Bool.and_eq_true, beq_iff_eq, ih bs, List.cons_append]
      constructor
      · rintro ⟨rfl, t, rfl⟩
        exact ⟨t, rfl⟩
      · rintro ⟨t, h⟩
        injection h with h1 h2
        exact ⟨h1.symm, t, h2⟩

theorem subListOf_iff (pat : List Char) : ∀ bs : List Char,
    subListOf pat bs = true ↔ ∃ l r, bs = l ++ pat ++ r := by
  intro bs
  induction bs with
  | nil =>
    simp only [subListOf, leadsList_iff]
    constructor
    · rintro ⟨t, h⟩
      exact ⟨[], t, by simpa using h⟩
    · rintro ⟨l, r, h⟩
      rcases (by simpa using h.symm : l = [] ∧ pat = [] ∧ r = []) with ⟨rfl, rfl, rfl⟩
      exact ⟨[], by simp⟩
  | cons b bs ih =>
    simp only [subListOf, Bool.or_eq_true, leadsList_iff, ih]
    constructor
    · rintro (⟨t, h⟩ | ⟨l, r, h⟩)
      · exact ⟨[], t, by simpa using h⟩
      · exact ⟨b :: l, r, by simp [h]⟩
    · rintro ⟨l, r, h⟩
      cases l with
      | nil =>
        exact Or.inl ⟨r, by simpa using h⟩
      | cons c l =>
        injection h with h1 h2
        exact Or.inr ⟨l, r, h2⟩

theorem strIncludes_iff (s pat : String) :
    strIncludes s pat = true ↔ ContainsSub s pat := by
  unfold strIncludes ContainsSub
  exact subListOf_iff pat.data s.data

/- ===== Providers and API-key requirements =====
   Translated from `AGENT_API_KEY_REQUIREMENTS` and
   `getOpenCodeRequiredKeys` in the TaskForm source. -/

/-- The provider enumeration (`type Provider` in the source). -/
inductive Provider where
  | openai
  | gemini
  | cursor
  | anthropic
  | aigateway
deriving DecidableEq, Repr

/-- `AGENT_API_KEY_REQUIREMENTS`: static record of required providers per
agent; `opencode` maps to the empty list because its key is determined
dynamically from the model.  Unknown keys read as `none` (JS `undefined`). -/
def AGENT_API_KEY_REQUIREMENTS : String → Option (List Provider)
  | "claude" => some [Provider.anthropic]
  | "codex" => some [Provider.aigateway]
  | "opencode" => some []
  | _ => none

/-- `getOpenCodeRequiredKeys`: which key(s) opencode needs, decided by
substring inspection of the model name. -/
def getOpenCodeRequiredKeys (model : String) : List Provider :=
  if strIncludes model "gemini" then [Provider.gemini]
  else if strIncludes model "claude" || strIncludes model "sonnet" || strIncludes model "opus" then
    [Provider.anthropic]
  else if strIncludes model "gpt" then [Provider.aigateway]
  else [Provider.aigateway, Provider.anthropic]

/- ===== Agent and model catalog ===== -/

/-- One entry of `CODING_AGENTS` (icon omitted: purely visual). -/
structure AgentDef where
  value : String
  label : String
deriving DecidableEq, Repr

/-- One entry of an `AGENT_MODELS` list. -/
structure ModelDef where
  value : String
  label : String
deriving DecidableEq, Repr

/-- `CODING_AGENTS` from the source. -/
def CODING_AGENTS : List AgentDef :=
  [⟨"codex", "Codex"⟩, ⟨"claude", "Claude"⟩, ⟨"opencode", "Opencode"⟩]

/-- `AGENT_MODELS`: model options per agent; unknown keys read as `none`. -/
def AGENT_MODELS : String → Option (List ModelDef)
  | "codex" => some [⟨"gpt-5.1-codex", "GPT-5.1-Codex"⟩]
  | "claude" => some [⟨"claude-sonnet-4-5-20250929", "Sonnet 4.5"⟩]
  | "opencode" => some [⟨"gemini-3-pro-preview", "Gemini 3 Pro"⟩]
  | _ => none

/-- `DEFAULT_MODELS`: default model per agent; unknown keys read as `none`. -/
def DEFAULT_MODELS : String → Option String
  | "codex" => some "gpt-5.1-codex"
  | "claude" => some "claude-sonnet-4-5-20250929"
  | "opencode" => some "gemini-3-pro-preview"
  | _ => none

/-- `CODING_AGENTS.some((agent) => agent.value === a)`; the
`isDivider` guard in the source is vacuous since no entry has that field. -/
def isKnownAgent (a : String) : Bool :=
  CODING_AGENTS.any (fun ag => ag.value == a)

/-- The agent identifiers offered by the agent dropdown. -/
def agentValues : List String := CODING_AGENTS.map AgentDef.value

/-- The model identifiers the model dropdown offers for agent `a`. -/
def modelValues (a : String) : List String :=
  ((AGENT_MODELS a).getD []).map ModelDef.value

/- ===== TaskForm submit pipeline (`handleSubmit`) ===== -/

/-- `interface GitHubRepo` from the source. -/
structure GitHubRepo where
  name : String
  full_name : String
  description : String
  isPrivate : Bool
  clone_url : String
  language : String
deriving DecidableEq, Repr

/-- The payload handed to the `onSubmit` callback. -/
structure SubmitPayload where
  prompt : String
  repoUrl : String
  selectedAgent : String
  selectedModel : String
  installDependencies : Bool
  maxDuration : Nat
  keepAlive : Bool
deriving DecidableEq, Repr

/-- The parsed JSON body of `GET /api/api-keys/check`. -/
structure KeyCheckResponse where
  hasKey : Bool
  provider : String
  agentName : String
deriving DecidableEq, Repr

/-- Form state visible to `handleSubmit`: local state, props
(`selectedOwner`, `selectedRepo`) and the repo-cache atom. -/
structure TaskFormState where
  prompt : String
  selectedAgent : String
  selectedModel : String
  selectedOwner : String
  selectedRepo : String
  repos : Option (List GitHubRepo)
  installDependencies : Bool
  maxDuration : Nat
  keepAlive : Bool
deriving DecidableEq, Repr

/-- What a run of `handleSubmit` produced. -/
inductive SubmitResult where
  | silentReject
  | keyError (providerName : String)
  | submitted (payload : SubmitPayload)
deriving DecidableEq, Repr

/-- Outcome of one `handleSubmit` run: whether the `/api/api-keys/check`
request was issued, and the result. -/
structure SubmitOutcome where
  keyCheckIssued : Bool
  result : SubmitResult
deriving DecidableEq, Repr

/-- `providerNames[p]`: the display-name record inside `handleSubmit`;
unknown keys read as `none` (JS `undefined`). -/
def providerNames : String → Option String
  | "anthropic" => some "Anthropic"
  | "openai" => some "OpenAI"
  | "cursor" => some "Cursor"
  | "gemini" => some "Gemini"
  | "aigateway" => some "AI Gateway"
  | _ => none

/-- `providerNames[data.provider] || data.provider`. -/
def providerDisplayName (p : String) : String :=
  (providerNames p).getD p

/-- JavaScript `s.trim()`: strip leading and trailing whitespace.
Defined structurally over the character list so that the kernel can
evaluate it on concrete inputs. -/
def trimString (s : String) : String :=
  ⟨((s.data.dropWhile Char.isWhitespace).reverse.dropWhile Char.isWhitespace).reverse⟩

/-- `repos?.find((repo) => repo.name === selectedRepo)`. -/
def findSelectedRepo (repos : Option (List GitHubRepo)) (selectedRepo : String) :
    Option GitHubRepo :=
  repos.bind (fun rs => rs.find? (fun r => r.name == selectedRepo))

/-- `handleSubmit`, with the key-check fetch abstracted by `kc`
(`Except.error ()` = the fetch or the JSON parse threw).  `kc` is only
consulted on the branch where the source issues the request.
`repoUrl` in the found-repo branches is `selectedRepoData?.clone_url || ''`,
which there equals `repoData.clone_url` (`x || ''` is `x` for every string
except `''`, where both sides are `''`). -/
def handleSubmit (s : TaskFormState) (kc : Except Unit KeyCheckResponse) :
    SubmitOutcome :=
  if trimString s.prompt = "" then ⟨false, SubmitResult.silentReject⟩
  else if s.selectedOwner = "" ∨ s.selectedRepo = "" then
    ⟨false, SubmitResult.submitted
      ⟨trimString s.prompt, "", s.selectedAgent, s.selectedModel,
       s.installDependencies, s.maxDuration, s.keepAlive⟩⟩
  else
    match findSelectedRepo s.repos s.selectedRepo with
    | some repoData =>
      match kc with
      | Except.ok data =>
        if !data.hasKey then
          ⟨true, SubmitResult.keyError (providerDisplayName data.provider)⟩
        else
          ⟨true, SubmitResult.submitted
            ⟨trimString s.prompt, repoData.clone_url, s.selectedAgent, s.selectedModel,
             s.installDependencies, s.maxDuration, s.keepAlive⟩⟩
      | Except.error _ =>
        ⟨true, SubmitResult.submitted
          ⟨trimString s.prompt, repoData.clone_url, s.selectedAgent, s.selectedModel,
           s.installDependencies, s.maxDuration, s.keepAlive⟩⟩
    | none =>
      ⟨false, SubmitResult.submitted
        ⟨trimString s.prompt, "", s.selectedAgent, s.selectedModel,
         s.installDependencies, s.maxDuration, s.keepAlive⟩⟩

/- ===== TaskForm agent/model state machine ===== -/

/-- The persisted preferences the form reads and writes: the
`lastSelectedAgentAtom` and the `lastSelectedModelAtomFamily` keyed by
agent. -/
structure PersistedPrefs where
  savedAgent : Option String
  savedModel : String → Option String

/-- The two pieces of component state the resolution effects manage. -/
structure ComponentState where
  selectedAgent : String
  selectedModel : String
deriving DecidableEq, Repr

/-- The fixed `defaultAgent` constant. -/
def defaultAgent : String := "codex"

/-- The `useState` initializer for `selectedAgent`:
`savedAgent && CODING_AGENTS.some(...) ? savedAgent : defaultAgent`
(a `null` or empty saved value is falsy). -/
def initialSelectedAgent (savedAgent : Option String) : String :=
  match savedAgent with
  | some sa => if sa != "" && isKnownAgent sa then sa else defaultAgent
  | none => defaultAgent

/-- The `useState` initializer pair: the initial model is always
`DEFAULT_MODELS[defaultAgent]`, independent of the initial agent. -/
def initialComponentState (savedAgent : Option String) : ComponentState :=
  ⟨initialSelectedAgent savedAgent, (DEFAULT_MODELS defaultAgent).getD ""⟩

/-- The `else if (savedAgent)` arm of the mount effect. -/
def mountSavedFallback (savedAgent : Option String) (s : ComponentState) :
    ComponentState :=
  match savedAgent with
  | some sa =>
    if sa != "" && isKnownAgent sa then { s with selectedAgent := sa } else s
  | none => s

/-- The mount effect: URL `agent` parameter first (and, inside that
branch, the URL `model` parameter when valid for that agent), else the
persisted agent. -/
def mountEffect (savedAgent urlAgent urlModel : Option String)
    (s : ComponentState) : ComponentState :=
  match urlAgent with
  | some ua =>
    if ua != "" && isKnownAgent ua then
      let s1 := { s with selectedAgent := ua }
      match urlModel with
      | some um =>
        if um != "" && ((AGENT_MODELS ua).getD []).any (fun m => m.value == um)
        then { s1 with selectedModel := um }
        else s1
      | none => s1
    else mountSavedFallback savedAgent s
  | none => mountSavedFallback savedAgent s

/-- The `else` arm of the model-resolution effect:
`DEFAULT_MODELS[selectedAgent]`, set only when defined. -/
def modelEffectDefault (s : ComponentState) : ComponentState :=
  match DEFAULT_MODELS s.selectedAgent with
  | some d => { s with selectedModel := d }
  | none => s

/-- The model-resolution effect (deps `[selectedAgent, savedModel]`):
persisted model for the current agent when still valid, else that
agent's default model. -/
def modelEffect (savedModel : String → Option String) (s : ComponentState) :
    ComponentState :=
  if s.selectedAgent != "" then
    match savedModel s.selectedAgent with
    | some m =>
      if m != "" && ((AGENT_MODELS s.selectedAgent).getD []).any (fun x => x.value == m)
      then { s with selectedModel := m }
      else modelEffectDefault s
    | none => modelEffectDefault s
  else s

/-- The settled state after mount.  On the first React commit the mount
effect and the model-resolution effect both run, in that order, and the
model-resolution effect re-runs once more when the mount effect changed
its `[selectedAgent, savedModel]` dependencies; in every case the
model-resolution effect, evaluated at the final agent, has the last
write to `selectedModel`, which this composition expresses. -/
def mountState (p : PersistedPrefs) (urlAgent urlModel : Option String) :
    ComponentState :=
  modelEffect p.savedModel
    (mountEffect p.savedAgent urlAgent urlModel
      (initialComponentState p.savedAgent))

/-- The agent dropdown's `onValueChange`: set and persist the agent,
after which the model-resolution effect re-runs. -/
def selectAgent (p : PersistedPrefs) (s : ComponentState) (a : String) :
    PersistedPrefs × ComponentState :=
  let p1 : PersistedPrefs := { p with savedAgent := some a }
  (p1, modelEffect p1.savedModel { s with selectedAgent := a })

/-- The model dropdown's `onValueChange`: set the model and persist it
for the current agent, after which the model-resolution effect re-runs
(its `savedModel` dependency changed). -/
def selectModel (p : PersistedPrefs) (s : ComponentState) (m : String) :
    PersistedPrefs × ComponentState :=
  let p1 : PersistedPrefs :=
    { p with savedModel := fun ag => if ag == s.selectedAgent then some m else p.savedModel ag }
  (p1, modelEffect p1.savedModel { s with selectedModel := m })

/-- States of (preferences, component state) reachable by mounting and
then any sequence of dropdown selections; the dropdowns only offer
catalog agents and the current agent's models. -/
inductive Reachable : PersistedPrefs × ComponentState → Prop where
  | mounted (p : PersistedPrefs) (urlAgent urlModel : Option String) :
      Reachable (p, mountState p urlAgent urlModel)
  | stepAgent {p : PersistedPrefs} {s : ComponentState} (a : String) :
      Reachable (p, s) → a ∈ agentValues → Reachable (selectAgent p s a)
  | stepModel {p : PersistedPrefs} {s : ComponentState} (m : String) :
      Reachable (p, s) → m ∈ modelValues s.selectedAgent →
      Reachable (selectModel p s m)

/- ===== Spec-side resolution rules (for the precedence claim) ===== -/

/-- Spec wording: persisted agent when known, else the fixed default. -/
def specSavedAgent (savedAgent : Option String) : String :=
  match savedAgent with
  | some sa => if isKnownAgent sa then sa else defaultAgent
  | none => defaultAgent

/-- Spec wording: URL agent when known, else persisted-when-known, else
the fixed default. -/
def specResolveAgent (savedAgent urlAgent : Option String) : String :=
  match urlAgent with
  | some ua => if isKnownAgent ua then ua else specSavedAgent savedAgent
  | none => specSavedAgent savedAgent

/-- Spec wording: persisted model for the agent when still in the
agent's model set, else the agent's default model. -/
def specPersistedModel (savedModel : String → Option String) (agent : String) :
    String :=
  match savedModel agent with
  | some m => if m ∈ modelValues agent then m else (DEFAULT_MODELS agent).getD ""
  | none => (DEFAULT_MODELS agent).getD ""

/-- Spec wording: URL model when valid for the resolved agent, else the
persisted-model-if-valid-else-default rule. -/
def specResolveModel (savedModel : String → Option String) (agent : String)
    (urlModel : Option String) : String :=
  match urlModel with
  | some um => if um ∈ modelValues agent then um else specPersistedModel savedModel agent
  | none => specPersistedModel savedModel agent

/- ===== TaskForm repository-list fetch effect ===== -/

/-- Result of the `GET /api/github/repos?owner=...` round trip:
`ok` = `response.ok` with a parsed body, `httpError` = `response.ok`
false, `networkError` = the fetch or the JSON parse threw. -/
inductive FetchOutcome where
  | ok (reposList : List GitHubRepo)
  | httpError
  | networkError
deriving DecidableEq, Repr

/-- Outcome of one run of the repo-fetch effect: the new value of the
repo-cache atom and whether the network request was issued. -/
structure RepoFetchResult where
  newRepos : Option (List GitHubRepo)
  requestIssued : Bool
deriving DecidableEq, Repr

/-- The body of `fetchRepos` past the cache check: issue the request;
replace the cache only when `response.ok`. -/
def repoFetchIssue (cache : Option (List GitHubRepo)) (fr : FetchOutcome) :
    RepoFetchResult :=
  match fr with
  | FetchOutcome.ok reposList => ⟨some reposList, true⟩
  | FetchOutcome.httpError => ⟨cache, true⟩
  | FetchOutcome.networkError => ⟨cache, true⟩

/-- One run of the repo-fetch effect.  It reads only `selectedOwner` and
the `repos` cache from the form state (they are its declared
dependencies): empty owner clears the cache without a request; a
non-empty cached list short-circuits; otherwise the request is issued. -/
def repoFetchEffect (s : TaskFormState) (fr : FetchOutcome) : RepoFetchResult :=
  if s.selectedOwner = "" then ⟨none, false⟩
  else
    match s.repos with
    | some rs =>
      if rs.length > 0 then ⟨some rs, false⟩ else repoFetchIssue (some rs) fr
    | none => repoFetchIssue none fr

/- ===== Database scripts ===== -/

/-- Connection-lifecycle events of one script run. -/
inductive DbEvent where
  | openConnection
  | applyMigrations
  | executeDrops
  | closeConnection
deriving DecidableEq, Repr

/-- Trace and outcome of one script run. -/
structure ScriptRun where
  events : List DbEvent
  outcome : Except String Unit
deriving Repr

/-- `runMigrations` from `scripts/migrate.ts`.  `env` is
`process.env.POSTGRES_URL` (`some ""` is falsy in JS, hence also
rejected); `migrateResult` abstracts the awaited `migrate(...)` call,
`Except.error` covering both migration failure and unexpected errors.
The `finally` block closes the connection on both branches. -/
def runMigrations (env : Option String) (migrateResult : Except String Unit) :
    ScriptRun :=
  if env.getD "" = "" then
    ⟨[], Except.error "POSTGRES_URL environment variable is required"⟩
  else
    match migrateResult with
    | Except.ok _ =>
      ⟨[DbEvent.openConnection, DbEvent.applyMigrations, DbEvent.closeConnection],
       Except.ok ()⟩
    | Except.error e =>
      ⟨[DbEvent.openConnection, DbEvent.applyMigrations, DbEvent.closeConnection],
       Except.error e⟩

/-- The standalone entry point: `.then(() => process.exit(0))`,
`.catch(() => process.exit(1))`. -/
def migrateScriptExit (env : Option String) (migrateResult : Except String Unit) :
    Nat :=
  match (runMigrations env migrateResult).outcome with
  | Except.ok _ => 0
  | Except.error _ => 1

/-- One `DROP TABLE`/`DROP SCHEMA` statement of the reset script. -/
structure DropStmt where
  isTable : Bool
  name : String
  ifExists : Bool
  cascade : Bool
deriving DecidableEq, Repr

/-- The eleven drop statements `resetDatabase` issues, in source order:
the `drizzle` bookkeeping schema followed by ten tables. -/
def resetStatements : List DropStmt :=
  [⟨false, "drizzle", true, true⟩,
   ⟨true, "anonymous_chat_logs", true, true⟩,
   ⟨true, "chat_ownerships", true, true⟩,
   ⟨true, "accounts", true, true⟩,
   ⟨true, "connectors", true, true⟩,
   ⟨true, "keys", true, true⟩,
   ⟨true, "settings", true, true⟩,
   ⟨true, "task_messages", true, true⟩,
   ⟨true, "tasks", true, true⟩,
   ⟨true, "users", true, true⟩,
   ⟨true, "__drizzle_migrations", true, true⟩]

/-- The table names among the reset script's drop statements. -/
def resetTableNames : List String :=
  (resetStatements.filter (fun st => st.isTable)).map DropStmt.name

/-- A database as seen by the drop statements: which schemas and which
tables currently exist.  Modelled from the external SQL engine's
documented `DROP ... IF EXISTS ... CASCADE` behaviour: dropping an
absent object is an error only without `IF EXISTS`. -/
structure DBState where
  schemas : List String
  tables : List String
deriving DecidableEq, Repr

/-- Execute one drop statement against a database state. -/
def execDrop (db : DBState) (st : DropStmt) : Except String DBState :=
  if st.isTable then
    if st.name ∈ db.tables then
      Except.ok { db with tables := db.tables.filter (fun t => t != st.name) }
    else if st.ifExists then Except.ok db
    else Except.error ("table does not exist: " ++ st.name)
  else
    if st.name ∈ db.schemas then
      Except.ok { db with schemas := db.schemas.filter (fun t => t != st.name) }
    else if st.ifExists then Except.ok db
    else Except.error ("schema does not exist: " ++ st.name)

/-- Execute a list of drop statements in order, stopping at the first
error (an `await` that throws aborts the `try` block). -/
def execAll (db : DBState) : List DropStmt → Except String DBState
  | [] => Except.ok db
  | st :: rest =>
    match execDrop db st with
    | Except.ok db1 => execAll db1 rest
    | Except.error e => Except.error e

/-- `resetDatabase` control flow: require `POSTGRES_URL`, open one
connection, run the drop sequence inside `try`, close the connection in
`finally` on success and on error alike.  `dropsResult` abstracts the
awaited statement sequence. -/
def resetDatabase (env : Option String) (dropsResult : Except String Unit) :
    ScriptRun :=
  if env.getD "" = "" then
    ⟨[], Except.error "POSTGRES_URL environment variable is required"⟩
  else
    match dropsResult with
    | Except.ok _ =>
      ⟨[DbEvent.openConnection, DbEvent.executeDrops, DbEvent.closeConnection],
       Except.ok ()⟩
    | Except.error e =>
      ⟨[DbEvent.openConnection, DbEvent.executeDrops, DbEvent.closeConnection],
       Except.error e⟩

/- ===== Helper lemmas ===== -/

theorem isKnownAgent_iff (a : String) :
    isKnownAgent a = true ↔ a = "codex" ∨ a = "claude" ∨ a = "opencode" := by
  constructor
  · intro h
    simp only [isKnownAgent, CODING_AGENTS, List.any_cons, List.any_nil,
      Bool.or_eq_true, beq_iff_eq, Bool.false_eq_true, or_false] at h
    rcases h with h | h | h
    · exact Or.inl h.symm
    · exact Or.inr (Or.inl h.symm)
    · exact Or.inr (Or.inr h.symm)
  · rintro (h | h | h) <;> subst h <;> decide

theorem agentValues_mem (a : String) :
    a ∈ agentValues ↔ isKnownAgent a = true := by
  simp only [agentValues, CODING_AGENTS, List.map_cons, List.map_nil,
    List.mem_cons, List.not_mem_nil, or_false, isKnownAgent_iff]

theorem neEmpty_and_known (sa : String) :
    (sa != "" && isKnownAgent sa) = isKnownAgent sa := by
  by_cases h : sa = ""
  · subst h; decide
  · simp [h]

theorem modelEffectDefault_selectedAgent (s : ComponentState) :
    (modelEffectDefault s).selectedAgent = s.selectedAgent := by
  unfold modelEffectDefault
  cases DEFAULT_MODELS s.selectedAgent <;> rfl

theorem modelEffect_selectedAgent (f : String → Option String)
    (s : ComponentState) :
    (modelEffect f s).selectedAgent = s.selectedAgent := by
  unfold modelEffect
  by_cases h : s.selectedAgent != ""
  · simp only [h, if_true]
    cases f s.selectedAgent with
    | none => exact modelEffectDefault_selectedAgent s
    | some m =>
      by_cases hm : (m != "" && ((AGENT_MODELS s.selectedAgent).getD []).any (fun x => x.value == m)) = true
      · simp [hm]
      · simp only [Bool.not_eq_true] at hm
        simp [hm, modelEffectDefault_selectedAgent s]
  · simp only [Bool.not_eq_true] at h
    simp [h]

theorem specPersistedModel_singleton (f : String → Option String) (A d : String)
    (hmv : modelValues A = [d]) (hd : DEFAULT_MODELS A = some d) :
    specPersistedModel f A = d := by
  unfold specPersistedModel
  cases hfm : f A with
  | none => simp [hd]
  | some m =>
    rw [hmv]
    by_cases hv : m = d <;> simp [hv, hd]

theorem specPersistedModel_known (f : String → Option String) (A : String)
    (hA : isKnownAgent A = true) :
    specPersistedModel f A = (DEFAULT_MODELS A).getD "" := by
  rcases (isKnownAgent_iff A).mp hA with h | h | h <;> subst h
  · exact specPersistedModel_singleton f "codex" "gpt-5.1-codex" rfl rfl
  · exact specPersistedModel_singleton f "claude" "claude-sonnet-4-5-20250929" rfl rfl
  · exact specPersistedModel_singleton f "opencode" "gemini-3-pro-preview" rfl rfl

theorem modelEffect_singleton (f : String → Option String) (s : ComponentState)
    (d lbl : String) (hag : s.selectedAgent ≠ "")
    (hm : AGENT_MODELS s.selectedAgent = some [⟨d, lbl⟩])
    (hd : DEFAULT_MODELS s.selectedAgent = some d) :
    (modelEffect f s).selectedModel = specPersistedModel f s.selectedAgent := by
  have hmv : modelValues s.selectedAgent = [d] := by
    simp [modelValues, hm]
  unfold modelEffect modelEffectDefault specPersistedModel
  simp only [bne_iff_ne, ne_eq, hag, not_false_eq_true, if_true, hm, hd, hmv,
    Option.getD_some, List.any_cons, List.any_nil, Bool.or_false]
  cases hfm : f s.selectedAgent with
  | none => simp
  | some m =>
    by_cases hv : m = d
    · subst hv
      by_cases hme : m = ""
      · subst hme; simp
      · simp [hme]
    · simp [hv, Ne.symm hv]

theorem modelEffect_eq_spec (f : String → Option String) (s : ComponentState)
    (hA : isKnownAgent s.selectedAgent = true) :
    (modelEffect f s).selectedModel = specPersistedModel f s.selectedAgent := by
  rcases (isKnownAgent_iff _).mp hA with h | h | h
  · exact modelEffect_singleton f s "gpt-5.1-codex" "GPT-5.1-Codex"
      (by rw [h]; decide) (by rw [h]; decide) (by rw [h]; decide)
  · exact modelEffect_singleton f s "claude-sonnet-4-5-20250929" "Sonnet 4.5"
      (by rw [h]; decide) (by rw [h]; decide) (by rw [h]; decide)
  · exact modelEffect_singleton f s "gemini-3-pro-preview" "Gemini 3 Pro"
      (by rw [h]; decide) (by rw [h]; decide) (by rw [h]; decide)

theorem mountSavedFallback_agent (sav : Option String) :
    (mountSavedFallback sav (initialComponentState sav)).selectedAgent =
      specSavedAgent sav := by
  cases sav with
  | none => rfl
  | some sa =>
    unfold mountSavedFallback initialComponentState initialSelectedAgent specSavedAgent
    simp only [neEmpty_and_known]
    by_cases hk : isKnownAgent sa = true
    · simp [hk]
    · simp only [Bool.not_eq_true] at hk
      simp [hk]

theorem specSavedAgent_known (sav : Option String) :
    isKnownAgent (specSavedAgent sav) = true := by
  cases sav with
  | none => decide
  | some sa =>
    unfold specSavedAgent
    by_cases hk : isKnownAgent sa = true
    · simp [hk]
    · simp only [Bool.not_eq_true] at hk
      simp [hk]
      decide

theorem specResolveAgent_known (sav ua : Option String) :
    isKnownAgent (specResolveAgent sav ua) = true := by
  cases ua with
  | none => exact specSavedAgent_known sav
  | some u =>
    unfold specResolveAgent
    by_cases hk : isKnownAgent u = true
    · simp [hk]
    · simp only [Bool.not_eq_true] at hk
      simp [hk, specSavedAgent_known sav]

theorem mountState_agent (p : PersistedPrefs) (ua um : Option String) :
    (mountState p ua um).selectedAgent = specResolveAgent p.savedAgent ua := by
  unfold mountState
  rw [modelEffect_selectedAgent]
  unfold mountEffect specResolveAgent
  cases ua with
  | none => exact mountSavedFallback_agent p.savedAgent
  | some u =>
    simp only [neEmpty_and_known]
    by_cases hk : isKnownAgent u = true
    · simp only [hk, if_true]
      cases um with
      | none => simp
      | some m =>
        by_cases hc : (m != "" && ((AGENT_MODELS u).getD []).any (fun x => x.value == m)) = true
        · simp [hc]
        · simp only [Bool.not_eq_true] at hc
          simp [hc]
    · simp only [Bool.not_eq_true] at hk
      simp only [hk, Bool.false_eq_true, if_false]
      exact mountSavedFallback_agent p.savedAgent

theorem mountState_model (p : PersistedPrefs) (ua um : Option String) :
    (mountState p ua um).selectedModel =
      specPersistedModel p.savedModel (specResolveAgent p.savedAgent ua) := by
  have hag : (mountEffect p.savedAgent ua um (initialComponentState p.savedAgent)).selectedAgent
      = specResolveAgent p.savedAgent ua := by
    have h := mountState_agent p ua um
    unfold mountState at h
    rwa [modelEffect_selectedAgent] at h
  unfold mountState
  rw [modelEffect_eq_spec _ _ (by rw [hag]; exact specResolveAgent_known _ _), hag]

theorem specResolveModel_collapse (f : String → Option String) (A : String)
    (um : Option String) (hA : isKnownAgent A = true) :
    specResolveModel f A um = specPersistedModel f A := by
  cases um with
  | none => rfl
  | some u =>
    show (if u ∈ modelValues A then u else specPersistedModel f A) = specPersistedModel f A
    by_cases hu : u ∈ modelValues A
    · rw [if_pos hu, specPersistedModel_known f A hA]
      rcases (isKnownAgent_iff A).mp hA with h | h | h <;> subst h <;>
        (simp only [modelValues, AGENT_MODELS, Option.getD_some, List.map_cons,
           List.map_nil, List.mem_cons, List.not_mem_nil, or_false] at hu ;
         subst hu ; decide)
    · rw [if_neg hu]

theorem mem_modelValues_eq_default (A m : String) (hA : isKnownAgent A = true)
    (hm : m ∈ modelValues A) : m = (DEFAULT_MODELS A).getD "" := by
  rcases (isKnownAgent_iff A).mp hA with h | h | h <;> subst h <;>
    (simp only [modelValues, AGENT_MODELS, Option.getD_some, List.map_cons,
       List.map_nil, List.mem_cons, List.not_mem_nil, or_false] at hm ;
     subst hm ; decide)

theorem default_mem_modelValues (A : String) (hA : isKnownAgent A = true) :
    (DEFAULT_MODELS A).getD "" ∈ modelValues A := by
  rcases (isKnownAgent_iff A).mp hA with h | h | h <;> subst h <;> decide

/- ===== Claim theorems ===== -/

/-- Claim C2: for every state of the other fields, submitting with a
prompt that trims to the empty string never reaches the `onSubmit`
callback, issues no API-key-check request, and surfaces no error (the
rejection is the silent early return). -/
theorem claim_C2_empty_prompt_silent (s : TaskFormState)
    (kc : Except Unit KeyCheckResponse) (hp : trimString s.prompt = "") :
    handleSubmit s kc = ⟨false, SubmitResult.silentReject⟩ := by
  unfold handleSubmit
  rw [if_pos hp]

/-- Witness for C2 at a concrete whitespace-only prompt. -/
theorem claim_C2_witness :
    trimString "   " = "" ∧
    handleSubmit
      ⟨"   ", "claude", "claude-sonnet-4-5-20250929", "o", "r",
       some [⟨"r", "o/r", "", false, "https://example.com/o/r.git", "ts"⟩],
       true, 60, true⟩
      (Except.ok ⟨true, "anthropic", "claude"⟩) =
      ⟨false, SubmitResult.silentReject⟩ :=
  ⟨by decide, claim_C2_empty_prompt_silent _ _ (by decide)⟩

/-- Claim C10: owner and repo selected but no cached repo of that name
(cache `none`, empty, or without a match): the key check is skipped and
`onSubmit` receives the payload with an empty `repoUrl`. -/
theorem claim_C10_no_cached_match (s : TaskFormState)
    (kc : Except Unit KeyCheckResponse)
    (hp : trimString s.prompt ≠ "") (ho : s.selectedOwner ≠ "")
    (hr : s.selectedRepo ≠ "")
    (hfind : findSelectedRepo s.repos s.selectedRepo = none) :
    handleSubmit s kc =
      ⟨false, SubmitResult.submitted
        ⟨trimString s.prompt, "", s.selectedAgent, s.selectedModel,
         s.installDependencies, s.maxDuration, s.keepAlive⟩⟩ := by
  unfold handleSubmit
  rw [if_neg hp, if_neg (not_or.mpr ⟨ho, hr⟩), hfind]

/-- Witness for C10: a cache that lacks the selected repo name. -/
theorem claim_C10_witness :
    trimString " fix " ≠ "" ∧
    findSelectedRepo
      (some [⟨"other", "o/other", "", false, "https://example.com/o/other.git", "ts"⟩])
      "r" = none ∧
    handleSubmit
      ⟨" fix ", "codex", "gpt-5.1-codex", "o", "r",
       some [⟨"other", "o/other", "", false, "https://example.com/o/other.git", "ts"⟩],
       false, 5, false⟩ (Except.error ()) =
      ⟨false, SubmitResult.submitted ⟨"fix", "", "codex", "gpt-5.1-codex", false, 5, false⟩⟩ := by
  refine ⟨by decide, by decide, ?_⟩
  have h := claim_C10_no_cached_match
    ⟨" fix ", "codex", "gpt-5.1-codex", "o", "r",
     some [⟨"other", "o/other", "", false, "https://example.com/o/other.git", "ts"⟩],
     false, 5, false⟩ (Except.error ())
    (by decide) (by decide) (by decide) (by decide)
  exact h.trans (by decide)

/-- Counterexample to claim C1 as stated: with owner and repo selected
and a matching repo cached, a submit whose prompt is whitespace-only
issues no API-key-check request at all (the claim asserts every such
submit issues one). -/
theorem claim_C1_counterexample :
    findSelectedRepo
      (some [⟨"r", "o/r", "", false, "https://example.com/o/r.git", "ts"⟩]) "r" =
      some ⟨"r", "o/r", "", false, "https://example.com/o/r.git", "ts"⟩ ∧
    handleSubmit
      ⟨" ", "codex", "gpt-5.1-codex", "o", "r",
       some [⟨"r", "o/r", "", false, "https://example.com/o/r.git", "ts"⟩],
       true, 300, false⟩ (Except.error ()) =
      ⟨false, SubmitResult.silentReject⟩ := by
  decide

/-- Claim C1 amended: additionally assuming the prompt is non-empty
after trimming (otherwise the silent prompt guard fires first), a submit
with owner and repo selected and a matching cached repo issues the
API-key-check request; a `hasKey: false` response aborts with an error
naming the missing provider and never reaches `onSubmit`; a failed check
request forwards the payload anyway. -/
theorem claim_C1_key_check (s : TaskFormState)
    (kc : Except Unit KeyCheckResponse) (r : GitHubRepo)
    (hp : trimString s.prompt ≠ "") (ho : s.selectedOwner ≠ "")
    (hr : s.selectedRepo ≠ "")
    (hfind : findSelectedRepo s.repos s.selectedRepo = some r) :
    (handleSubmit s kc).keyCheckIssued = true ∧
    (∀ data : KeyCheckResponse, kc = Except.ok data → data.hasKey = false →
      (handleSubmit s kc).result =
        SubmitResult.keyError (providerDisplayName data.provider) ∧
      ∀ payload, (handleSubmit s kc).result ≠ SubmitResult.submitted payload) ∧
    (kc = Except.error () →
      (handleSubmit s kc).result =
        SubmitResult.submitted
          ⟨trimString s.prompt, r.clone_url, s.selectedAgent, s.selectedModel,
           s.installDependencies, s.maxDuration, s.keepAlive⟩) := by
  unfold handleSubmit
  rw [if_neg hp, if_neg (not_or.mpr ⟨ho, hr⟩), hfind]
  refine ⟨?_, ?_, ?_⟩
  · cases kc with
    | ok data =>
      by_cases hk : data.hasKey <;> simp [hk]
    | error e => rfl
  · rintro data rfl hk
    simp [hk]
  · rintro rfl
    rfl

/-- Witness for C1 (amended) at a concrete matching repo and a failing
check request. -/
theorem claim_C1_witness :
    trimString " add tests " ≠ "" ∧
    findSelectedRepo
      (some [⟨"r", "o/r", "", false, "https://example.com/o/r.git", "ts"⟩]) "r" =
      some ⟨"r", "o/r", "", false, "https://example.com/o/r.git", "ts"⟩ ∧
    (handleSubmit
      ⟨" add tests ", "codex", "gpt-5.1-codex", "o", "r",
       some [⟨"r", "o/r", "", false, "https://example.com/o/r.git", "ts"⟩],
       true, 300, false⟩ (Except.error ())).keyCheckIssued = true ∧
    (handleSubmit
      ⟨" add tests ", "codex", "gpt-5.1-codex", "o", "r",
       some [⟨"r", "o/r", "", false, "https://example.com/o/r.git", "ts"⟩],
       true, 300, false⟩ (Except.error ())).result =
      SubmitResult.submitted
        ⟨"add tests", "https://example.com/o/r.git", "codex", "gpt-5.1-codex",
         true, 300, false⟩ := by
  have h := claim_C1_key_check
    ⟨" add tests ", "codex", "gpt-5.1-codex", "o", "r",
     some [⟨"r", "o/r", "", false, "https://example.com/o/r.git", "ts"⟩],
     true, 300, false⟩ (Except.error ())
    ⟨"r", "o/r", "", false, "https://example.com/o/r.git", "ts"⟩
    (by decide) (by decide) (by decide) (by decide)
  exact ⟨by decide, by decide, h.1, (h.2.2 rfl).trans (by decide)⟩

theorem selectAgent_selectedAgent (p : PersistedPrefs) (s : ComponentState)
    (a : String) : (selectAgent p s a).2.selectedAgent = a := by
  unfold selectAgent
  rw [modelEffect_selectedAgent]

theorem select_agent_then_model (p : PersistedPrefs) (s : ComponentState)
    (a m : String) (ha : a ∈ agentValues) (hm : m ∈ modelValues a) :
    (selectModel (selectAgent p s a).1 (selectAgent p s a).2 m).2 = ⟨a, m⟩ := by
  have hka := (agentValues_mem a).mp ha
  have h1 := selectAgent_selectedAgent p s a
  have hA : (selectModel (selectAgent p s a).1 (selectAgent p s a).2 m).2.selectedAgent = a := by
    unfold selectModel
    rw [modelEffect_selectedAgent]
    exact h1
  have hM : (selectModel (selectAgent p s a).1 (selectAgent p s a).2 m).2.selectedModel = m := by
    unfold selectModel
    rw [modelEffect_eq_spec _ _ (by simpa [h1] using hka)]
    show specPersistedModel _ (selectAgent p s a).2.selectedAgent = m
    rw [h1]
    unfold specPersistedModel
    simp [hm]
  calc (selectModel (selectAgent p s a).1 (selectAgent p s a).2 m).2
      = ⟨(selectModel (selectAgent p s a).1 (selectAgent p s a).2 m).2.selectedAgent,
         (selectModel (selectAgent p s a).1 (selectAgent p s a).2 m).2.selectedModel⟩ := rfl
    _ = ⟨a, m⟩ := by rw [hA, hM]

/-- Claim C3: for every catalog agent A and model M of A, selecting A
then M and submitting a non-empty (after trimming) prompt with no
owner/repo selected skips the key check and calls `onSubmit` once with
`repoUrl = ""`, the trimmed prompt, and exactly A and M. -/
theorem claim_C3_no_repo_payload (p : PersistedPrefs) (cs : ComponentState)
    (a m promptText owner repo : String) (repos : Option (List GitHubRepo))
    (deps : Bool) (dur : Nat) (keep : Bool) (kc : Except Unit KeyCheckResponse)
    (ha : a ∈ agentValues) (hm : m ∈ modelValues a)
    (hp : trimString promptText ≠ "") (how : owner = "" ∨ repo = "") :
    handleSubmit
      ⟨promptText,
       (selectModel (selectAgent p cs a).1 (selectAgent p cs a).2 m).2.selectedAgent,
       (selectModel (selectAgent p cs a).1 (selectAgent p cs a).2 m).2.selectedModel,
       owner, repo, repos, deps, dur, keep⟩ kc =
      ⟨false, SubmitResult.submitted
        ⟨trimString promptText, "", a, m, deps, dur, keep⟩⟩ := by
  rw [select_agent_then_model p cs a m ha hm]
  unfold handleSubmit
  rw [if_neg hp, if_pos how]

/-- Witness for C3: agent `claude` with its model, empty owner. -/
theorem claim_C3_witness :
    "claude" ∈ agentValues ∧
    "claude-sonnet-4-5-20250929" ∈ modelValues "claude" ∧
    trimString " fix bug " ≠ "" ∧
    handleSubmit
      ⟨" fix bug ",
       (selectModel (selectAgent ⟨none, fun _ => none⟩ ⟨"codex", "gpt-5.1-codex"⟩ "claude").1
          (selectAgent ⟨none, fun _ => none⟩ ⟨"codex", "gpt-5.1-codex"⟩ "claude").2
          "claude-sonnet-4-5-20250929").2.selectedAgent,
       (selectModel (selectAgent ⟨none, fun _ => none⟩ ⟨"codex", "gpt-5.1-codex"⟩ "claude").1
          (selectAgent ⟨none, fun _ => none⟩ ⟨"codex", "gpt-5.1-codex"⟩ "claude").2
          "claude-sonnet-4-5-20250929").2.selectedModel,
       "", "r", none, true, 300, false⟩ (Except.error ()) =
      ⟨false, SubmitResult.submitted
        ⟨"fix bug", "", "claude", "claude-sonnet-4-5-20250929", true, 300, false⟩⟩ := by
  refine ⟨by decide, by decide, by decide, ?_⟩
  have h := claim_C3_no_repo_payload ⟨none, fun _ => none⟩ ⟨"codex", "gpt-5.1-codex"⟩
    "claude" "claude-sonnet-4-5-20250929" " fix bug " "" "r" none true 300 false
    (Except.error ()) (by decide) (by decide) (by decide) (Or.inl rfl)
  exact h.trans (by decide)

/-- Claim C4: the required-key resolution per agent and model: `claude`
needs the anthropic key, `codex` the aigateway key, and `opencode`
resolves by substring inspection of the model name with the ambiguous
fallback requiring both aigateway and anthropic. -/
theorem claim_C4_required_keys (m : String) :
    AGENT_API_KEY_REQUIREMENTS "claude" = some [Provider.anthropic] ∧
    AGENT_API_KEY_REQUIREMENTS "codex" = some [Provider.aigateway] ∧
    (ContainsSub m "gemini" → getOpenCodeRequiredKeys m = [Provider.gemini]) ∧
    (¬ ContainsSub m "gemini" →
      (ContainsSub m "claude" ∨ ContainsSub m "sonnet" ∨ ContainsSub m "opus") →
      getOpenCodeRequiredKeys m = [Provider.anthropic]) ∧
    (¬ ContainsSub m "gemini" →
      ¬ (ContainsSub m "claude" ∨ ContainsSub m "sonnet" ∨ ContainsSub m "opus") →
      ContainsSub m "gpt" → getOpenCodeRequiredKeys m = [Provider.aigateway]) ∧
    (¬ ContainsSub m "gemini" →
      ¬ (ContainsSub m "claude" ∨ ContainsSub m "sonnet" ∨ ContainsSub m "opus") →
      ¬ ContainsSub m "gpt" →
      getOpenCodeRequiredKeys m = [Provider.aigateway, Provider.anthropic]) := by
  have toB : ∀ pat, ContainsSub m pat → strIncludes m pat = true :=
    fun pat h => (strIncludes_iff m pat).mpr h
  have toF : ∀ pat, ¬ ContainsSub m pat → strIncludes m pat = false := by
    intro pat h
    rw [Bool.eq_false_iff]
    exact fun hb => h ((strIncludes_iff m pat).mp hb)
  refine ⟨rfl, rfl, ?_, ?_, ?_, ?_⟩
  · intro h
    unfold getOpenCodeRequiredKeys
    rw [if_pos (toB "gemini" h)]
  · intro hg h2
    unfold getOpenCodeRequiredKeys
    simp only [toF "gemini" hg, Bool.false_eq_true, if_false]
    rcases h2 with h | h | h <;> simp [toB _ h]
  · intro hg h2 hgpt
    have hc := toF "claude" (fun x => h2 (Or.inl x))
    have hs := toF "sonnet" (fun x => h2 (Or.inr (Or.inl x)))
    have hop := toF "opus" (fun x => h2 (Or.inr (Or.inr x)))
    unfold getOpenCodeRequiredKeys
    simp [toF "gemini" hg, hc, hs, hop, toB "gpt" hgpt]
  · intro hg h2 hgpt
    have hc := toF "claude" (fun x => h2 (Or.inl x))
    have hs := toF "sonnet" (fun x => h2 (Or.inr (Or.inl x)))
    have hop := toF "opus" (fun x => h2 (Or.inr (Or.inr x)))
    unfold getOpenCodeRequiredKeys
    simp [toF "gemini" hg, hc, hs, hop, toF "gpt" hgpt]

/-- Witness for C4 at the concrete opencode gemini model. -/
theorem claim_C4_witness :
    ContainsSub "gemini-3-pro-preview" "gemini" ∧
    getOpenCodeRequiredKeys "gemini-3-pro-preview" = [Provider.gemini] := by
  have hc : ContainsSub "gemini-3-pro-preview" "gemini" :=
    (strIncludes_iff "gemini-3-pro-preview" "gemini").mp (by decide)
  exact ⟨hc, (claim_C4_required_keys "gemini-3-pro-preview").2.2.1 hc⟩

/-- Claim C5: the mount-time resolution of `selectedAgent` follows the
precedence URL parameter > persisted agent > default `codex`, the
mount-time resolution of `selectedModel` follows the precedence URL
parameter (if valid for the resolved agent) > persisted model for that
agent (if still in its model set) > the agent's default model, and every
agent change re-resolves the model by the same
persisted-model-if-valid-else-default rule. -/
theorem claim_C5_resolution_precedence (p : PersistedPrefs)
    (ua um : Option String) (s : ComponentState) (a : String)
    (ha : a ∈ agentValues) :
    (mountState p ua um).selectedAgent = specResolveAgent p.savedAgent ua ∧
    (mountState p ua um).selectedModel =
      specResolveModel p.savedModel (specResolveAgent p.savedAgent ua) um ∧
    (selectAgent p s a).2.selectedAgent = a ∧
    (selectAgent p s a).2.selectedModel = specPersistedModel p.savedModel a := by
  have hka := (agentValues_mem a).mp ha
  refine ⟨mountState_agent p ua um, ?_, selectAgent_selectedAgent p s a, ?_⟩
  · rw [mountState_model p ua um,
      specResolveModel_collapse _ _ _ (specResolveAgent_known p.savedAgent ua)]
  · unfold selectAgent
    rw [modelEffect_eq_spec _ _ (by simpa using hka)]

/-- Witness for C5: a persisted `claude` agent, no URL parameters, and a
user switch to `opencode`. -/
theorem claim_C5_witness :
    "opencode" ∈ agentValues ∧
    (mountState ⟨some "claude", fun _ => none⟩ none none).selectedAgent = "claude" ∧
    (mountState ⟨some "claude", fun _ => none⟩ none none).selectedModel =
      "claude-sonnet-4-5-20250929" ∧
    (selectAgent ⟨some "claude", fun _ => none⟩ ⟨"claude", "claude-sonnet-4-5-20250929"⟩
      "opencode").2.selectedModel = "gemini-3-pro-preview" := by
  have h := claim_C5_resolution_precedence ⟨some "claude", fun _ => none⟩ none none
    ⟨"claude", "claude-sonnet-4-5-20250929"⟩ "opencode" (by decide)
  refine ⟨by decide, ?_, ?_, ?_⟩
  · exact h.1.trans (by decide)
  · exact h.2.1.trans (by decide)
  · exact h.2.2.2.trans (by decide)

theorem reachable_state_invariant (q : PersistedPrefs × ComponentState)
    (h : Reachable q) :
    isKnownAgent q.2.selectedAgent = true ∧
    q.2.selectedModel ∈ modelValues q.2.selectedAgent := by
  induction h with
  | mounted p ua um =>
    refine ⟨?_, ?_⟩
    · rw [mountState_agent]
      exact specResolveAgent_known p.savedAgent ua
    · rw [mountState_model, mountState_agent,
        specPersistedModel_known _ _ (specResolveAgent_known p.savedAgent ua)]
      exact default_mem_modelValues _ (specResolveAgent_known p.savedAgent ua)
  | stepAgent a hr ha ih =>
    have hka := (agentValues_mem a).mp ha
    refine ⟨?_, ?_⟩
    · rw [selectAgent_selectedAgent]
      exact hka
    · rw [selectAgent_selectedAgent]
      show (selectAgent _ _ a).2.selectedModel ∈ modelValues a
      unfold selectAgent
      rw [modelEffect_eq_spec _ _ (by simpa using hka),
        specPersistedModel_known _ _ (by simpa using hka)]
      simpa using default_mem_modelValues a hka
  | stepModel m hr hmem ih =>
    obtain ⟨hk, _⟩ := ih
    refine ⟨?_, ?_⟩
    · unfold selectModel
      rw [modelEffect_selectedAgent]
      exact hk
    · unfold selectModel
      rw [modelEffect_selectedAgent,
        modelEffect_eq_spec _ _ (by simpa using hk),
        specPersistedModel_known _ _ (by simpa using hk)]
      exact default_mem_modelValues _ (by simpa using hk)

/-- Claim C6: in every reachable form state, `selectedModel` is in the
model set valid for the current `selectedAgent`. -/
theorem claim_C6_model_invariant (p : PersistedPrefs) (s : ComponentState)
    (h : Reachable (p, s)) :
    s.selectedModel ∈ modelValues s.selectedAgent :=
  (reachable_state_invariant (p, s) h).2

/-- Witness for C6 at the freshly mounted default state. -/
theorem claim_C6_witness :
    Reachable (⟨none, fun _ => none⟩,
      mountState ⟨none, fun _ => none⟩ none none) ∧
    (mountState ⟨none, fun _ => none⟩ none none).selectedModel ∈
      modelValues (mountState ⟨none, fun _ => none⟩ none none).selectedAgent :=
  ⟨Reachable.mounted ⟨none, fun _ => none⟩ none none,
   claim_C6_model_invariant _ _ (Reachable.mounted ⟨none, fun _ => none⟩ none none)⟩

/-- Claim C7: the repo-list cache behaviour: empty owner clears the
cache without a request; a non-empty cached list for the owner skips the
request; otherwise exactly one request is issued, success replaces the
cache, failure leaves it unchanged; and the effect depends only on the
owner and the cache, so changing any other form field cannot alter it. -/
theorem claim_C7_repo_cache (s t : TaskFormState) (fr : FetchOutcome) :
    (s.selectedOwner = "" → repoFetchEffect s fr = ⟨none, false⟩) ∧
    (∀ rs, s.selectedOwner ≠ "" → s.repos = some rs → rs ≠ [] →
      repoFetchEffect s fr = ⟨some rs, false⟩) ∧
    (s.selectedOwner ≠ "" → (s.repos = none ∨ s.repos = some []) →
      (repoFetchEffect s fr).requestIssued = true ∧
      (∀ l, fr = FetchOutcome.ok l → (repoFetchEffect s fr).newRepos = some l) ∧
      ((fr = FetchOutcome.httpError ∨ fr = FetchOutcome.networkError) →
        (repoFetchEffect s fr).newRepos = s.repos)) ∧
    (s.selectedOwner = t.selectedOwner → s.repos = t.repos →
      repoFetchEffect s fr = repoFetchEffect t fr) := by
  refine ⟨?_, ?_, ?_, ?_⟩
  · intro h
    unfold repoFetchEffect
    rw [if_pos h]
  · intro rs ho hrs hne
    unfold repoFetchEffect
    rw [if_neg ho, hrs]
    have hlen : rs.length > 0 := List.length_pos.mpr hne
    simp [hlen]
  · intro ho hc
    rcases hc with hc | hc <;>
      (unfold repoFetchEffect ;
       rw [if_neg ho, hc] ;
       refine ⟨?_, ?_, ?_⟩)
    · cases fr <;> rfl
    · rintro l rfl
      rfl
    · rintro (rfl | rfl) <;> simp [repoFetchIssue, hc]
    · cases fr <;> rfl
    · rintro l rfl
      rfl
    · rintro (rfl | rfl) <;> simp [repoFetchIssue, hc]
  · intro h1 h2
    unfold repoFetchEffect
    rw [h1, h2]

/-- Witness for C7 exercising the cleared, cached and fetching branches. -/
theorem claim_C7_witness :
    repoFetchEffect
      ⟨"p", "codex", "gpt-5.1-codex", "", "", none, true, 300, false⟩
      FetchOutcome.networkError = ⟨none, false⟩ ∧
    repoFetchEffect
      ⟨"p", "codex", "gpt-5.1-codex", "o", "",
       some [⟨"r", "o/r", "", false, "https://example.com/o/r.git", "ts"⟩],
       true, 300, false⟩ FetchOutcome.networkError =
      ⟨some [⟨"r", "o/r", "", false, "https://example.com/o/r.git", "ts"⟩], false⟩ ∧
    (repoFetchEffect
      ⟨"p", "codex", "gpt-5.1-codex", "o", "", none, true, 300, false⟩
      (FetchOutcome.ok [⟨"r", "o/r", "", false, "https://example.com/o/r.git", "ts"⟩])).requestIssued
      = true ∧
    (repoFetchEffect
      ⟨"p", "codex", "gpt-5.1-codex", "o", "", none, true, 300, false⟩
      (FetchOutcome.ok [⟨"r", "o/r", "", false, "https://example.com/o/r.git", "ts"⟩])).newRepos
      = some [⟨"r", "o/r", "", false, "https://example.com/o/r.git", "ts"⟩] := by
  refine ⟨?_, ?_, ?_, ?_⟩
  · exact (claim_C7_repo_cache
      ⟨"p", "codex", "gpt-5.1-codex", "", "", none, true, 300, false⟩
      ⟨"p", "codex", "gpt-5.1-codex", "", "", none, true, 300, false⟩
      FetchOutcome.networkError).1 rfl
  · exact (claim_C7_repo_cache
      ⟨"p", "codex", "gpt-5.1-codex", "o", "",
       some [⟨"r", "o/r", "", false, "https://example.com/o/r.git", "ts"⟩],
       true, 300, false⟩
      ⟨"p", "codex", "gpt-5.1-codex", "o", "",
       some [⟨"r", "o/r", "", false, "https://example.com/o/r.git", "ts"⟩],
       true, 300, false⟩
      FetchOutcome.networkError).2.1
      [⟨"r", "o/r", "", false, "https://example.com/o/r.git", "ts"⟩]
      (by decide) rfl (by decide)
  · exact ((claim_C7_repo_cache
      ⟨"p", "codex", "gpt-5.1-codex", "o", "", none, true, 300, false⟩
      ⟨"p", "codex", "gpt-5.1-codex", "o", "", none, true, 300, false⟩
      (FetchOutcome.ok [⟨"r", "o/r", "", false, "https://example.com/o/r.git", "ts"⟩])).2.2.1
      (by decide) (Or.inl rfl)).1
  · exact ((claim_C7_repo_cache
      ⟨"p", "codex", "gpt-5.1-codex", "o", "", none, true, 300, false⟩
      ⟨"p", "codex", "gpt-5.1-codex", "o", "", none, true, 300, false⟩
      (FetchOutcome.ok [⟨"r", "o/r", "", false, "https://example.com/o/r.git", "ts"⟩])).2.2.1
      (by decide) (Or.inl rfl)).2.1
      [⟨"r", "o/r", "", false, "https://example.com/o/r.git", "ts"⟩] rfl

/-- Claim C8: the migration runner fails fast with a descriptive error
and no connection when `POSTGRES_URL` is absent; otherwise it opens one
connection, runs the migration step and closes the connection whether
the step succeeded or failed; standalone it exits 0 on success and 1 on
any failure. -/
theorem claim_C8_migration_runner (env : Option String)
    (mr : Except String Unit) :
    (env.getD "" = "" →
      runMigrations env mr =
        ⟨[], Except.error "POSTGRES_URL environment variable is required"⟩) ∧
    (env.getD "" ≠ "" →
      (runMigrations env mr).events =
        [DbEvent.openConnection, DbEvent.applyMigrations, DbEvent.closeConnection]) ∧
    (env.getD "" ≠ "" → mr = Except.ok () → migrateScriptExit env mr = 0) ∧
    ((env.getD "" = "" ∨ ∃ e, mr = Except.error e) →
      migrateScriptExit env mr = 1) := by
  refine ⟨?_, ?_, ?_, ?_⟩
  · intro h
    unfold runMigrations
    rw [if_pos h]
  · intro h
    unfold runMigrations
    rw [if_neg h]
    cases mr <;> rfl
  · rintro h rfl
    unfold migrateScriptExit runMigrations
    rw [if_neg h]
  · rintro (h | ⟨e, rfl⟩)
    · unfold migrateScriptExit runMigrations
      rw [if_pos h]
    · unfold migrateScriptExit runMigrations
      by_cases h2 : env.getD "" = ""
      · rw [if_pos h2]
      · rw [if_neg h2]

/-- Witness for C8: a set and an unset connection string. -/
theorem claim_C8_witness :
    (Option.some "postgres://db").getD "" ≠ "" ∧
    (runMigrations (some "postgres://db") (Except.ok ())).events =
      [DbEvent.openConnection, DbEvent.applyMigrations, DbEvent.closeConnection] ∧
    migrateScriptExit (some "postgres://db") (Except.ok ()) = 0 ∧
    migrateScriptExit none (Except.ok ()) = 1 ∧
    runMigrations none (Except.ok ()) =
      ⟨[], Except.error "POSTGRES_URL environment variable is required"⟩ := by
  have h1 := claim_C8_migration_runner (some "postgres://db") (Except.ok ())
  have h2 := claim_C8_migration_runner none (Except.ok ())
  exact ⟨by decide, h1.2.1 (by decide), h1.2.2.1 (by decide) rfl,
    h2.2.2.2 (Or.inl rfl), h2.1 rfl⟩

theorem execDrop_ifExists (db : DBState) (st : DropStmt)
    (h : st.ifExists = true) :
    ∃ db2, execDrop db st = Except.ok db2 ∧
      db2.tables ⊆ db.tables ∧ db2.schemas ⊆ db.schemas ∧
      (st.isTable = true → st.name ∉ db2.tables) ∧
      (st.isTable = false → st.name ∉ db2.schemas) := by
  unfold execDrop
  by_cases ht : st.isTable = true
  · simp only [ht, if_true]
    by_cases hin : st.name ∈ db.tables
    · rw [if_pos hin]
      refine ⟨_, rfl, fun x hx => List.mem_of_mem_filter hx, fun x hx => hx, ?_, ?_⟩
      · intro _
        simp [List.mem_filter]
      · intro hf
        simp [ht] at hf
    · rw [if_neg hin, if_pos h]
      exact ⟨db, rfl, fun x hx => hx, fun x hx => hx, fun _ => hin,
        fun hf => by simp [ht] at hf⟩
  · have ht2 : st.isTable = false := by simpa using ht
    simp only [ht2, Bool.false_eq_true, if_false]
    by_cases hin : st.name ∈ db.schemas
    · rw [if_pos hin]
      refine ⟨_, rfl, fun x hx => hx, fun x hx => List.mem_of_mem_filter hx, ?_, ?_⟩
      · intro hf
        simp [ht2] at hf
      · intro _
        simp [List.mem_filter]
    · rw [if_neg hin, if_pos h]
      exact ⟨db, rfl, fun x hx => hx, fun x hx => hx,
        fun hf => by simp [ht2] at hf, fun _ => hin⟩

theorem execAll_ifExists (stmts : List DropStmt)
    (hall : ∀ st ∈ stmts, st.ifExists = true) :
    ∀ db : DBState, ∃ db2, execAll db stmts = Except.ok db2 ∧
      db2.tables ⊆ db.tables ∧ db2.schemas ⊆ db.schemas ∧
      (∀ st ∈ stmts, st.isTable = true → st.name ∉ db2.tables) ∧
      (∀ st ∈ stmts, st.isTable = false → st.name ∉ db2.schemas) := by
  induction stmts with
  | nil =>
    intro db
    exact ⟨db, rfl, fun x hx => hx, fun x hx => hx, by simp, by simp⟩
  | cons st rest ih =>
    intro db
    obtain ⟨db1, h1, hts1, hss1, hgt1, hgs1⟩ :=
      execDrop_ifExists db st (hall st (List.mem_cons_self st rest))
    obtain ⟨db2, h2, hts2, hss2, hgt2, hgs2⟩ :=
      ih (fun x hx => hall x (List.mem_cons_of_mem st hx)) db1
    refine ⟨db2, ?_, hts2.trans hts1, hss2.trans hss1, ?_, ?_⟩
    · unfold execAll
      rw [h1]
      exact h2
    · intro x hx htab
      rcases List.mem_cons.mp hx with rfl | hx
      · exact fun hin => (hgt1 htab) (hts2 hin)
      · exact hgt2 x hx htab
    · intro x hx hsch
      rcases List.mem_cons.mp hx with rfl | hx
      · exact fun hin => (hgs1 hsch) (hss2 hin)
      · exact hgs2 x hx hsch

/-- Counterexample to claim C9 as stated: the reset script's drop
sequence names exactly ten tables, not eleven (its eleventh drop targets
the `drizzle` schema, which the claim counts separately). -/
theorem claim_C9_counterexample :
    resetTableNames.length = 10 ∧ ¬ resetTableNames.length = 11 := by
  decide

/-- Claim C9 amended: given the connection-string environment variable,
the reset tool issues eleven cascading `IF EXISTS` drops — ten named
tables plus the `drizzle` migration-bookkeeping schema — which succeed
on every database state (in particular when any object is absent) and
leave none of the named tables nor the `drizzle` schema behind; the
single connection is opened once and closed on success and error alike. -/
theorem claim_C9_reset_drops (env : Option String)
    (dropsResult : Except String Unit) (db : DBState)
    (henv : env.getD "" ≠ "") :
    resetStatements.length = 11 ∧
    resetTableNames.length = 10 ∧
    (∀ st ∈ resetStatements, st.ifExists = true ∧ st.cascade = true) ∧
    (∃ db2, execAll db resetStatements = Except.ok db2 ∧
      (∀ n ∈ resetTableNames, n ∉ db2.tables) ∧ "drizzle" ∉ db2.schemas) ∧
    (resetDatabase env dropsResult).events.count DbEvent.openConnection = 1 ∧
    (resetDatabase env dropsResult).events.count DbEvent.closeConnection = 1 := by
  refine ⟨rfl, rfl, by decide, ?_, ?_, ?_⟩
  · obtain ⟨db2, hrun, _, _, hgt, hgs⟩ :=
      execAll_ifExists resetStatements (by decide) db
    refine ⟨db2, hrun, ?_, ?_⟩
    · intro n hn
      simp only [resetTableNames, List.mem_map, List.mem_filter] at hn
      obtain ⟨st, ⟨hst, htab⟩, rfl⟩ := hn
      exact hgt st hst htab
    · exact hgs ⟨false, "drizzle", true, true⟩ (by decide) rfl
  · unfold resetDatabase
    rw [if_neg henv]
    cases dropsResult <;> rfl
  · unfold resetDatabase
    rw [if_neg henv]
    cases dropsResult <;> rfl

/-- Witness for C9 (amended) on a populated database and a set
connection string. -/
theorem claim_C9_witness :
    (Option.some "postgres://db").getD "" ≠ "" ∧
    (∃ db2, execAll ⟨["drizzle", "public"], ["tasks", "users", "keys"]⟩
        resetStatements = Except.ok db2 ∧
      (∀ n ∈ resetTableNames, n ∉ db2.tables) ∧ "drizzle" ∉ db2.schemas) ∧
    (resetDatabase (some "postgres://db") (Except.ok ())).events.count
      DbEvent.closeConnection = 1 := by
  have h := claim_C9_reset_drops (some "postgres://db") (Except.ok ())
    ⟨["drizzle", "public"], ["tasks", "users", "keys"]⟩ (by decide)
  exact ⟨by decide, h.2.2.2.1, h.2.2.2.2.2⟩
